import Mathlib

/-!
Verification of the bbq-monitor core: a shallow embedding of the two
protocol decoders (`src/protocol.rs`), the per-reading freshness /
confidence / safety state machine, and the network-topology aggregate
(`src/device_capabilities.rs`), together with theorems settling the
frozen claims about them.

Conventions of the embedding:
* payload bytes are natural numbers (a hypothesis `b < 256` is added where
  a claim needs the `u8` range);
* `f32` temperature arithmetic is modelled over `ℚ` (`0.05 = 1/20`,
  `0.9 = 9/10`, …);
* Rust `u16` expressions that can exceed 16 bits take an explicit
  `% 65536`; Rust `i32` division (truncation toward zero) is `Int.div`;
* wall-clock age (`Utc::now() - timestamp` in the source) is passed as an
  explicit `age_seconds : ℕ` argument;
* fallible code returns `Except DecodeErr`; an out-of-bounds index is the
  distinguished error `DecodeErr.oob`, so "never reads out of bounds" is
  "never returns `.error .oob`".
-/

/-- Decode failures of the two protocol parsers.  `tooShort` carries the
required and the actual length, mirroring the source's error message;
`noValid` is the "No valid temperatures parsed" branch; `oob` marks an
out-of-bounds byte access (a panic in the Rust source). -/
inductive DecodeErr where
  | tooShort (need got : ℕ)
  | noValid
  | oob
deriving DecidableEq

/-- Fallible byte access: `data[i]` in the source, which panics when out of
bounds; here the distinguished error `DecodeErr.oob`. -/
def getByte (data : List ℕ) (i : ℕ) : Except DecodeErr ℕ :=
  match data.get? i with
  | some b => .ok b
  | none => .error .oob

/-- Celsius-then-Fahrenheit conversion of one raw 13-bit MeatStick sensor
value: `temp_celsius = raw * 0.05 - 20.0`, `temp_fahrenheit =
temp_celsius * 9.0 / 5.0 + 32.0`. -/
def rawToF (raw_temp : ℕ) : ℚ :=
  let temp_celsius : ℚ := (raw_temp : ℚ) * (1 / 20) - 20
  temp_celsius * 9 / 5 + 32

/-- Sanity check of the MeatStick parser: a converted value inside
`-40.0..=1100.0` is pushed as is, anything else is replaced by `0.0`. -/
def sanitizeTemp (raw_temp : ℕ) : ℚ :=
  if -40 ≤ rawToF raw_temp ∧ rawToF raw_temp ≤ 1100 then rawToF raw_temp else 0

/-- One 13-bit field extraction of `MeatStickProtocol::parse_temperature_data`:
`byte_offset = bit_offset / 8`, `bit_shift = bit_offset % 8`, with the
aligned two-byte case and the unaligned two-or-three-byte case.  The
`% 65536` on `high` models the `u16` truncation of the Rust shift. -/
def extractRaw (data : List ℕ) (bit_offset : ℕ) : Except DecodeErr ℕ :=
  let byte_offset := bit_offset / 8
  let bit_shift := bit_offset % 8
  if bit_shift = 0 then do
    let low ← getByte data byte_offset
    let high0 ← getByte data (byte_offset + 1)
    let high := high0 &&& 31
    .ok ((high <<< 8) ||| low)
  else do
    let bits_in_first := 8 - bit_shift
    let b0 ← getByte data byte_offset
    let b1 ← getByte data (byte_offset + 1)
    let low := b0 >>> bit_shift
    let mid := b1 <<< bits_in_first
    let high ←
      if bits_in_first < 5 then do
        let b2 ← getByte data (byte_offset + 2)
        .ok (((b2 &&& ((1 <<< (13 - 8)) - 1)) <<< (bits_in_first + 8)) % 65536)
      else
        .ok 0
    .ok ((high ||| mid ||| low) &&& 8191)

/-- The sensor loop of `MeatStickProtocol::parse_temperature_data`: the
counter runs through the 8 sensors while `bit_offset` advances by 13. -/
def meatStickLoop (data : List ℕ) : ℕ → ℕ → Except DecodeErr (List ℚ)
  | _, 0 => .ok []
  | bit_offset, n + 1 => do
    let raw_temp ← extractRaw data bit_offset
    let rest ← meatStickLoop data (bit_offset + 13) n
    .ok (sanitizeTemp raw_temp :: rest)

/-- `MeatStickProtocol::parse_temperature_data`: 13-byte minimum, 8
bit-packed 13-bit sensors, the `temperatures.is_empty()` rejection. -/
def MeatStickProtocol.parse_temperature_data (data : List ℕ) :
    Except DecodeErr (List ℚ) :=
  if data.length < 13 then .error (.tooShort 13 data.length)
  else
    match meatStickLoop data 0 8 with
    | .error e => .error e
    | .ok temperatures =>
      if temperatures.isEmpty then .error .noValid else .ok temperatures

/-- `MeaterProtocol::parse_temperature_data`: 8-byte minimum, tip from the
first little-endian `u16`, ambient from tip plus a clamped non-negative
correction computed from the `RA`/`OA` fields, each value range-checked
against `-40.0..=600.0` before being appended. -/
def MeaterProtocol.parse_temperature_data (data : List ℕ) :
    Except DecodeErr (List ℚ) :=
  if data.length < 8 then .error (.tooShort 8 data.length)
  else do
    let d0 ← getByte data 0
    let d1 ← getByte data 1
    let tip_raw := d0 + 256 * d1
    let tip_celsius : ℚ := (tip_raw : ℚ) / 10
    let tip_fahrenheit := tip_celsius * 9 / 5 + 32
    let temperatures0 : List ℚ :=
      if -40 ≤ tip_fahrenheit ∧ tip_fahrenheit ≤ 600 then [tip_fahrenheit] else []
    let d2 ← getByte data 2
    let d3 ← getByte data 3
    let d4 ← getByte data 4
    let d5 ← getByte data 5
    let ra_raw := d2 + 256 * d3
    let oa_raw := d4 + 256 * d5
    let ambient_raw : ℤ :=
      (tip_raw : ℤ) + max (Int.tdiv (((ra_raw : ℤ) - (min oa_raw 48 : ℕ)) * 16 * 589) 1487) 0
    let ambient_celsius : ℚ := (ambient_raw : ℚ) / 10
    let ambient_fahrenheit := ambient_celsius * 9 / 5 + 32
    let temperatures :=
      if -40 ≤ ambient_fahrenheit ∧ ambient_fahrenheit ≤ 600 then
        temperatures0 ++ [ambient_fahrenheit]
      else temperatures0
    .ok temperatures

/-- Value of the little-endian byte stream as one natural number. -/
def bytesLE : List ℕ → ℕ
  | [] => 0
  | b :: bs => b + 256 * bytesLE bs

/-- Spec-side definition, following the spec's words for the relational
claim: "the 13-bit unsigned field originally packed at that position of
the little-endian bitstream" — bits `[13*i, 13*i+13)` of the stream. -/
def specPackedField (data : List ℕ) (i : ℕ) : ℕ :=
  bytesLE data / 2 ^ (13 * i) % 2 ^ 13

/-- Tip temperature of the MEATER decoder as a function of the payload:
`u16::from_le_bytes([data[0], data[1]]) / 10.0`, converted to Fahrenheit. -/
def meaterTipF (data : List ℕ) : ℚ :=
  (((data.getD 0 0 + 256 * data.getD 1 0 : ℕ) : ℚ) / 10) * 9 / 5 + 32

/-- Raw ambient value of the MEATER decoder:
`tip_raw + max(0, ((ra - min(48, oa)) * 16 * 589) / 1487)` over `i32`. -/
def meaterAmbientRaw (data : List ℕ) : ℤ :=
  ((data.getD 0 0 + 256 * data.getD 1 0 : ℕ) : ℤ) +
    max (Int.tdiv ((((data.getD 2 0 + 256 * data.getD 3 0 : ℕ) : ℤ) -
      (min (data.getD 4 0 + 256 * data.getD 5 0) 48 : ℕ)) * 16 * 589) 1487) 0

/-- Ambient temperature of the MEATER decoder, in Fahrenheit. -/
def meaterAmbientF (data : List ℕ) : ℚ :=
  ((meaterAmbientRaw data : ℚ) / 10) * 9 / 5 + 32

/-- A list of length at least 13 starts with 13 explicit cells. -/
lemma exists_cons13 (d : List ℕ) (h : 13 ≤ d.length) :
    ∃ b0 b1 b2 b3 b4 b5 b6 b7 b8 b9 b10 b11 b12 rest,
      d = b0 :: b1 :: b2 :: b3 :: b4 :: b5 :: b6 :: b7 :: b8 :: b9 :: b10 ::
        b11 :: b12 :: rest := by
  rcases d with _ | ⟨b0, d⟩; · simp at h
  rcases d with _ | ⟨b1, d⟩; · simp at h
  rcases d with _ | ⟨b2, d⟩; · simp at h
  rcases d with _ | ⟨b3, d⟩; · simp at h
  rcases d with _ | ⟨b4, d⟩; · simp at h
  rcases d with _ | ⟨b5, d⟩; · simp at h
  rcases d with _ | ⟨b6, d⟩; · simp at h
  rcases d with _ | ⟨b7, d⟩; · simp at h
  rcases d with _ | ⟨b8, d⟩; · simp at h
  rcases d with _ | ⟨b9, d⟩; · simp at h
  rcases d with _ | ⟨b10, d⟩; · simp at h
  rcases d with _ | ⟨b11, d⟩; · simp at h
  rcases d with _ | ⟨b12, d⟩; · simp at h
  exact ⟨b0, b1, b2, b3, b4, b5, b6, b7, b8, b9, b10, b11, b12, d, rfl⟩

/-- A list of length at least 8 starts with 8 explicit cells. -/
lemma exists_cons8 (d : List ℕ) (h : 8 ≤ d.length) :
    ∃ b0 b1 b2 b3 b4 b5 b6 b7 rest,
      d = b0 :: b1 :: b2 :: b3 :: b4 :: b5 :: b6 :: b7 :: rest := by
  rcases d with _ | ⟨b0, d⟩; · simp at h
  rcases d with _ | ⟨b1, d⟩; · simp at h
  rcases d with _ | ⟨b2, d⟩; · simp at h
  rcases d with _ | ⟨b3, d⟩; · simp at h
  rcases d with _ | ⟨b4, d⟩; · simp at h
  rcases d with _ | ⟨b5, d⟩; · simp at h
  rcases d with _ | ⟨b6, d⟩; · simp at h
  rcases d with _ | ⟨b7, d⟩; · simp at h
  exact ⟨b0, b1, b2, b3, b4, b5, b6, b7, d, rfl⟩

/-- Evaluation of the 8-sensor loop on a payload with at least 13 bytes:
each sensor's raw value is the corresponding shift-and-mask expression of
the source's three alignment cases. -/
lemma meatStickLoop_eval (b0 b1 b2 b3 b4 b5 b6 b7 b8 b9 b10 b11 b12 : ℕ)
    (rest : List ℕ) :
    meatStickLoop (b0 :: b1 :: b2 :: b3 :: b4 :: b5 :: b6 :: b7 :: b8 :: b9 ::
        b10 :: b11 :: b12 :: rest) 0 8 =
      .ok [ sanitizeTemp (((b1 &&& 31) <<< 8) ||| b0),
            sanitizeTemp (((((b3 &&& 31) <<< 11) % 65536) ||| (b2 <<< 3) ||| (b1 >>> 5)) &&& 8191),
            sanitizeTemp ((0 ||| (b4 <<< 6) ||| (b3 >>> 2)) &&& 8191),
            sanitizeTemp (((((b6 &&& 31) <<< 9) % 65536) ||| (b5 <<< 1) ||| (b4 >>> 7)) &&& 8191),
            sanitizeTemp (((((b8 &&& 31) <<< 12) % 65536) ||| (b7 <<< 4) ||| (b6 >>> 4)) &&& 8191),
            sanitizeTemp ((0 ||| (b9 <<< 7) ||| (b8 >>> 1)) &&& 8191),
            sanitizeTemp (((((b11 &&& 31) <<< 10) % 65536) ||| (b10 <<< 2) ||| (b9 >>> 6)) &&& 8191),
            sanitizeTemp ((0 ||| (b12 <<< 5) ||| (b11 >>> 3)) &&& 8191) ] := rfl

/-- Evaluation of the MEATER parser on a payload with at least 8 bytes:
the result is the tip reading (if inside the band) followed by the
ambient reading (if inside the band). -/
lemma meater_parse_eval (b0 b1 b2 b3 b4 b5 b6 b7 : ℕ) (rest : List ℕ) :
    MeaterProtocol.parse_temperature_data
        (b0 :: b1 :: b2 :: b3 :: b4 :: b5 :: b6 :: b7 :: rest) =
      (let d := b0 :: b1 :: b2 :: b3 :: b4 :: b5 :: b6 :: b7 :: rest
       Except.ok (if -40 ≤ meaterAmbientF d ∧ meaterAmbientF d ≤ 600 then
            (if -40 ≤ meaterTipF d ∧ meaterTipF d ≤ 600 then [meaterTipF d] else []) ++
              [meaterAmbientF d]
          else
            (if -40 ≤ meaterTipF d ∧ meaterTipF d ≤ 600 then [meaterTipF d] else []))) := rfl

/-- A bitwise or of a multiple of `2 ^ k` with a value below `2 ^ k` is
their sum (the bit ranges are disjoint). -/
lemma lor_add_of_dvd (k x a : ℕ) (hx : 2 ^ k ∣ x) (h : a < 2 ^ k) :
    x ||| a = x + a := by
  obtain ⟨y, rfl⟩ := hx
  rw [← Nat.mul_add_lt_is_or h]

/-- Three-way disjoint bitwise or as a sum: `x` above bit `k`, `y` between
bits `j` and `k`, `z` below bit `j`. -/
lemma lor_lor_add (j k x y z : ℕ) (hjk : j ≤ k) (hx : 2 ^ k ∣ x) (hy : 2 ^ j ∣ y)
    (hyk : y < 2 ^ k) (hz : z < 2 ^ j) : x ||| y ||| z = x + y + z := by
  rw [lor_add_of_dvd k x y hx hyk]
  exact lor_add_of_dvd j (x + y) z (Nat.dvd_add (dvd_trans (pow_dvd_pow 2 hjk) hx) hy) hz

lemma and_31_eq (x : ℕ) : x &&& 31 = x % 32 := Nat.and_pow_two_sub_one_eq_mod x 5

lemma and_8191_eq (x : ℕ) : x &&& 8191 = x % 8192 := Nat.and_pow_two_sub_one_eq_mod x 13

lemma extractRaw_eq_specPackedField
    (b0 b1 b2 b3 b4 b5 b6 b7 b8 b9 b10 b11 b12 : ℕ)
    (h0 : b0 < 256) (h1 : b1 < 256) (h2 : b2 < 256) (h3 : b3 < 256) (h4 : b4 < 256)
    (h5 : b5 < 256) (h6 : b6 < 256) (h7 : b7 < 256) (h8 : b8 < 256) (h9 : b9 < 256)
    (h10 : b10 < 256) (h11 : b11 < 256) (h12 : b12 < 256) (i : ℕ) (hi : i < 8) :
    extractRaw [b0, b1, b2, b3, b4, b5, b6, b7, b8, b9, b10, b11, b12] (13 * i) =
      .ok (specPackedField [b0, b1, b2, b3, b4, b5, b6, b7, b8, b9, b10, b11, b12] i) := by
  interval_cases i
  · show Except.ok (((b1 &&& 31) <<< 8) ||| b0) = _
    refine congrArg Except.ok ?_
    simp only [and_31_eq, Nat.shiftLeft_eq, specPackedField, bytesLE]
    norm_num
    rw [lor_add_of_dvd 8 _ _ (by omega) (by omega)]
    omega
  · show Except.ok (((((b3 &&& 31) <<< 11) % 65536) ||| (b2 <<< 3) ||| (b1 >>> 5)) &&& 8191) = _
    refine congrArg Except.ok ?_
    simp only [and_31_eq, and_8191_eq, Nat.shiftLeft_eq, Nat.shiftRight_eq_div_pow,
      specPackedField, bytesLE]
    norm_num
    rw [lor_lor_add 3 11 _ _ _ (by omega) (by omega) (by omega) (by omega) (by omega)]
    omega
  · show Except.ok ((0 ||| (b4 <<< 6) ||| (b3 >>> 2)) &&& 8191) = _
    refine congrArg Except.ok ?_
    simp only [Nat.zero_or, and_8191_eq, Nat.shiftLeft_eq, Nat.shiftRight_eq_div_pow,
      specPackedField, bytesLE]
    norm_num
    rw [lor_add_of_dvd 6 _ _ (by omega) (by omega)]
    omega
  · show Except.ok (((((b6 &&& 31) <<< 9) % 65536) ||| (b5 <<< 1) ||| (b4 >>> 7)) &&& 8191) = _
    refine congrArg Except.ok ?_
    simp only [and_31_eq, and_8191_eq, Nat.shiftLeft_eq, Nat.shiftRight_eq_div_pow,
      specPackedField, bytesLE]
    norm_num
    rw [lor_lor_add 1 9 _ _ _ (by omega) (by omega) (by omega) (by omega) (by omega)]
    omega
  · show Except.ok (((((b8 &&& 31) <<< 12) % 65536) ||| (b7 <<< 4) ||| (b6 >>> 4)) &&& 8191) = _
    refine congrArg Except.ok ?_
    simp only [and_31_eq, and_8191_eq, Nat.shiftLeft_eq, Nat.shiftRight_eq_div_pow,
      specPackedField, bytesLE]
    norm_num
    rw [lor_lor_add 4 12 _ _ _ (by omega) (by omega) (by omega) (by omega) (by omega)]
    omega
  · show Except.ok ((0 ||| (b9 <<< 7) ||| (b8 >>> 1)) &&& 8191) = _
    refine congrArg Except.ok ?_
    simp only [Nat.zero_or, and_8191_eq, Nat.shiftLeft_eq, Nat.shiftRight_eq_div_pow,
      specPackedField, bytesLE]
    norm_num
    rw [lor_add_of_dvd 7 _ _ (by omega) (by omega)]
    omega
  · show Except.ok (((((b11 &&& 31) <<< 10) % 65536) ||| (b10 <<< 2) ||| (b9 >>> 6)) &&& 8191) = _
    refine congrArg Except.ok ?_
    simp only [and_31_eq, and_8191_eq, Nat.shiftLeft_eq, Nat.shiftRight_eq_div_pow,
      specPackedField, bytesLE]
    norm_num
    rw [lor_lor_add 2 10 _ _ _ (by omega) (by omega) (by omega) (by omega) (by omega)]
    omega
  · show Except.ok ((0 ||| (b12 <<< 5) ||| (b11 >>> 3)) &&& 8191) = _
    refine congrArg Except.ok ?_
    simp only [Nat.zero_or, and_8191_eq, Nat.shiftLeft_eq, Nat.shiftRight_eq_div_pow,
      specPackedField, bytesLE]
    norm_num
    rw [lor_add_of_dvd 5 _ _ (by omega) (by omega)]
    omega

/-- Vendor tag of a resolved device profile (`ProbeBrand` in the source). -/
inductive ProbeBrand where
  | MeatStickV1
  | MeatStickV2
  | MeatStickV
  | MeaterOriginal
  | MeaterPlus
  | MeaterBlock
  | WeberIGrill
  | Unknown (name : String)
deriving DecidableEq

/-- Device profile (`ProbeCapabilities` in the source).  Temperatures are
modelled over `ℚ`. -/
structure ProbeCapabilities where
  brand : ProbeBrand
  model : String
  sensor_count : ℕ
  max_ambient_temp_f : ℚ
  max_internal_temp_f : ℚ
  battery_life_hours : Option ℕ
  range_feet : Option ℕ
  has_repeater : Bool
  service_uuids : List String
deriving DecidableEq

/-- Safety classification of a reading (`SafetyStatus` in the source). -/
inductive SafetyStatus where
  | Safe
  | WarningAmbientHigh
  | WarningInternalHigh
  | DangerousAmbient
  | DangerousInternal
  | DeviceOffline
deriving DecidableEq

/-- Freshness tier carrying the age in seconds (`DataFreshness`). -/
inductive DataFreshness where
  | Live (age : ℕ)
  | Recent (age : ℕ)
  | Stale (age : ℕ)
  | Dead (age : ℕ)
deriving DecidableEq

/-- Per-probe reading state (`ProbeReading` in the source).  The decode
timestamp is a natural number of seconds. -/
structure ProbeReading where
  probe_id : String
  device_address : String
  timestamp : ℕ
  temperatures : List ℚ
  ambient_temp : Option ℚ
  battery_level : Option ℕ
  signal_strength : ℤ
  freshness : DataFreshness
  confidence : ℚ
  safety_status : SafetyStatus
deriving DecidableEq

/-- `ProbeReading::update_confidence`.  The source computes
`age_seconds = (Utc::now() - self.timestamp).num_seconds() as u64`; the
elapsed age is passed here as an explicit argument. -/
def ProbeReading.update_confidence (r : ProbeReading) (age_seconds : ℕ) :
    ProbeReading :=
  { r with
    confidence :=
      if age_seconds ≤ 30 then 1
      else if age_seconds ≤ 120 then 8/10
      else if age_seconds ≤ 300 then 5/10
      else if age_seconds ≤ 600 then 2/10
      else 0,
    freshness :=
      if age_seconds ≤ 30 then .Live age_seconds
      else if age_seconds ≤ 300 then .Recent age_seconds
      else if age_seconds ≤ 600 then .Stale age_seconds
      else .Dead age_seconds }

/-- The internal-temperature loop of `ProbeReading::update_safety_status`:
`.error` is the early `return` with `DangerousInternal`, `.ok` is the
fall-through (possibly having set `WarningInternalHigh`). -/
def internalCheckLoop (capabilities : ProbeCapabilities) (r : ProbeReading) :
    List ℚ → Except ProbeReading ProbeReading
  | [] => .ok r
  | temp :: rest =>
    if temp > capabilities.max_internal_temp_f then
      .error { r with safety_status := .DangerousInternal }
    else if temp > capabilities.max_internal_temp_f * (9/10) then
      internalCheckLoop capabilities { r with safety_status := .WarningInternalHigh } rest
    else
      internalCheckLoop capabilities r rest

/-- Tail of `ProbeReading::update_safety_status` after the ambient check:
the internal loop, then `update_confidence` and the final
`Safe`/`DeviceOffline` assignment driven by `confidence > 0.1`. -/
def afterAmbientCheck (r : ProbeReading) (capabilities : ProbeCapabilities)
    (age_seconds : ℕ) : ProbeReading :=
  match internalCheckLoop capabilities r r.temperatures with
  | .error rEarly => rEarly
  | .ok rPast =>
    let rConf := rPast.update_confidence age_seconds
    if rConf.confidence > 1/10 then { rConf with safety_status := .Safe }
    else { rConf with safety_status := .DeviceOffline }

/-- `ProbeReading::update_safety_status`: ambient checks first (dangerous
short-circuits, warning falls through), then the internal loop, then the
confidence-driven `Safe`/`DeviceOffline` assignment. -/
def ProbeReading.update_safety_status (r : ProbeReading)
    (capabilities : ProbeCapabilities) (age_seconds : ℕ) : ProbeReading :=
  match r.ambient_temp with
  | some ambient =>
    if ambient > capabilities.max_ambient_temp_f then
      { r with safety_status := .DangerousAmbient }
    else if ambient > capabilities.max_ambient_temp_f * (9/10) then
      afterAmbientCheck { r with safety_status := .WarningAmbientHigh }
        capabilities age_seconds
    else
      afterAmbientCheck r capabilities age_seconds
  | none => afterAmbientCheck r capabilities age_seconds

/-- The topology aggregate (`NetworkTopology`).  The three hash maps are
modelled as functions; the RSSI history default (`or_default`) is the
empty list. -/
structure NetworkTopology where
  devices : String → Option ProbeCapabilities
  readings : String → Option ProbeReading
  signal_map : String → List (ℕ × ℤ)
  last_update : ℕ

/-- `NetworkTopology::new`, with `Utc::now()` passed explicitly. -/
def NetworkTopology.new (now : ℕ) : NetworkTopology :=
  { devices := fun _ => none
    readings := fun _ => none
    signal_map := fun _ => []
    last_update := now }

/-- `NetworkTopology::add_device`: upsert of the profile map. -/
def NetworkTopology.add_device (t : NetworkTopology) (device_address : String)
    (capabilities : ProbeCapabilities) (now : ℕ) : NetworkTopology :=
  { t with
    devices := fun a => if a = device_address then some capabilities else t.devices a
    last_update := now }

/-- `NetworkTopology::update_reading`: append `(timestamp, rssi)` to the
device's history, drop the front entry once the length exceeds 100
(`remove(0)`), and upsert the reading keyed by probe id. -/
def NetworkTopology.update_reading (t : NetworkTopology) (reading : ProbeReading)
    (now : ℕ) : NetworkTopology :=
  let rssi_history :=
    t.signal_map reading.device_address ++ [(reading.timestamp, reading.signal_strength)]
  let rssi_history' :=
    if rssi_history.length > 100 then rssi_history.eraseIdx 0 else rssi_history
  { t with
    signal_map := fun a => if a = reading.device_address then rssi_history' else t.signal_map a
    readings := fun p => if p = reading.probe_id then some reading else t.readings p
    last_update := now }

/-- `NetworkTopology::get_active_probes` membership predicate: readings
with `confidence > 0.3`. -/
def NetworkTopology.is_active_probe (t : NetworkTopology) (probe_id : String) : Prop :=
  ∃ r, t.readings probe_id = some r ∧ r.confidence > 3/10

/-- The spec's topology invariant: every probe id present in the reading
map has its reading's device address present in the profile map. -/
def TopologyInv (t : NetworkTopology) : Prop :=
  ∀ probe_id r, t.readings probe_id = some r →
    ∃ capabilities, t.devices r.device_address = some capabilities

lemma internalCheckLoop_error_eq (capabilities : ProbeCapabilities) :
    ∀ (ts : List ℚ) (r e : ProbeReading),
      internalCheckLoop capabilities r ts = .error e →
      e = { r with safety_status := .DangerousInternal } := by
  intro ts
  induction ts with
  | nil => intro r e h; simp [internalCheckLoop] at h
  | cons temp rest ih =>
    intro r e h
    unfold internalCheckLoop at h
    split_ifs at h with h1 h2
    · simpa [eq_comm] using h
    · exact ih { r with safety_status := .WarningInternalHigh } e h
    · exact ih r e h

lemma internalCheckLoop_ok_exists (capabilities : ProbeCapabilities) :
    ∀ (ts : List ℚ) (r o : ProbeReading),
      internalCheckLoop capabilities r ts = .ok o →
      ∃ s, o = { r with safety_status := s } := by
  intro ts
  induction ts with
  | nil =>
    intro r o h
    simp only [internalCheckLoop, Except.ok.injEq] at h
    exact ⟨r.safety_status, h.symm⟩
  | cons temp rest ih =>
    intro r o h
    unfold internalCheckLoop at h
    split_ifs at h with h1 h2
    · exact ih { r with safety_status := .WarningInternalHigh } o h
    · exact ih r o h

lemma internalCheckLoop_ok_of_no_danger (capabilities : ProbeCapabilities) :
    ∀ (ts : List ℚ) (r : ProbeReading),
      (∀ temp ∈ ts, ¬ temp > capabilities.max_internal_temp_f) →
      ∃ s, internalCheckLoop capabilities r ts = .ok { r with safety_status := s } := by
  intro ts
  induction ts with
  | nil => intro r _; exact ⟨r.safety_status, rfl⟩
  | cons temp rest ih =>
    intro r hno
    have h1 : ¬ temp > capabilities.max_internal_temp_f := hno temp (by simp)
    have hrest : ∀ t ∈ rest, ¬ t > capabilities.max_internal_temp_f :=
      fun t ht => hno t (by simp [ht])
    unfold internalCheckLoop
    rw [if_neg h1]
    by_cases h2 : temp > capabilities.max_internal_temp_f * (9/10)
    · rw [if_pos h2]
      exact ih { r with safety_status := .WarningInternalHigh } hrest
    · rw [if_neg h2]
      exact ih r hrest

lemma update_confidence_status_set (r : ProbeReading) (s : SafetyStatus) (age_seconds : ℕ) :
    ProbeReading.update_confidence { r with safety_status := s } age_seconds =
      { r.update_confidence age_seconds with safety_status := s } := rfl

lemma update_confidence_confidence_eq (r : ProbeReading) (age_seconds : ℕ) :
    (r.update_confidence age_seconds).confidence =
      (if age_seconds ≤ 30 then 1
       else if age_seconds ≤ 120 then 8/10
       else if age_seconds ≤ 300 then 5/10
       else if age_seconds ≤ 600 then 2/10
       else 0) := rfl

lemma status_set_collapse (r : ProbeReading) (s s' : SafetyStatus) :
    ({ ({ r with safety_status := s } : ProbeReading) with safety_status := s' } : ProbeReading) =
      { r with safety_status := s' } := rfl

lemma status_set_confidence (r : ProbeReading) (s : SafetyStatus) :
    ({ r with safety_status := s } : ProbeReading).confidence = r.confidence := rfl

lemma afterAmbientCheck_no_danger (r : ProbeReading) (capabilities : ProbeCapabilities)
    (age_seconds : ℕ)
    (hint : ∀ temp ∈ r.temperatures, ¬ temp > capabilities.max_internal_temp_f) :
    afterAmbientCheck r capabilities age_seconds =
      { r.update_confidence age_seconds with
        safety_status :=
          if (r.update_confidence age_seconds).confidence > 1/10 then .Safe
          else .DeviceOffline } := by
  obtain ⟨s, hs⟩ := internalCheckLoop_ok_of_no_danger capabilities r.temperatures r hint
  unfold afterAmbientCheck
  rw [hs]
  show (if (ProbeReading.update_confidence { r with safety_status := s } age_seconds).confidence > 1/10
        then { ProbeReading.update_confidence { r with safety_status := s } age_seconds with
                 safety_status := SafetyStatus.Safe }
        else { ProbeReading.update_confidence { r with safety_status := s } age_seconds with
                 safety_status := SafetyStatus.DeviceOffline }) = _
  rw [update_confidence_status_set]
  split_ifs <;> rfl

lemma afterAmbientCheck_cases (r : ProbeReading) (capabilities : ProbeCapabilities)
    (age_seconds : ℕ) :
    afterAmbientCheck r capabilities age_seconds = { r with safety_status := .DangerousInternal } ∨
    afterAmbientCheck r capabilities age_seconds =
      { r.update_confidence age_seconds with safety_status := .Safe } ∨
    afterAmbientCheck r capabilities age_seconds =
      { r.update_confidence age_seconds with safety_status := .DeviceOffline } := by
  rcases hloop : internalCheckLoop capabilities r r.temperatures with e | o
  · left
    unfold afterAmbientCheck
    rw [hloop]
    exact internalCheckLoop_error_eq capabilities r.temperatures r e hloop
  · obtain ⟨s, rfl⟩ := internalCheckLoop_ok_exists capabilities r.temperatures r o hloop
    unfold afterAmbientCheck
    rw [hloop]
    dsimp only
    rw [update_confidence_status_set]
    split_ifs
    · right; left; rfl
    · right; right; rfl

/-- C3: a reading whose ambient temperature exceeds the profile's max
ambient limit is classified Dangerous-Ambient immediately — the whole
record is returned with only `safety_status` changed, regardless of the
internal sensor values. -/
theorem update_safety_status_dangerous_ambient (r : ProbeReading)
    (capabilities : ProbeCapabilities) (age_seconds : ℕ) (ambient : ℚ)
    (hsome : r.ambient_temp = some ambient)
    (hgt : ambient > capabilities.max_ambient_temp_f) :
    r.update_safety_status capabilities age_seconds =
      { r with safety_status := .DangerousAmbient } := by
  unfold ProbeReading.update_safety_status
  rw [hsome]
  dsimp only
  rw [if_pos hgt]

/-- Concrete instance of `update_safety_status_dangerous_ambient`. -/
def exCapabilities : ProbeCapabilities :=
  { brand := .MeatStickV
    model := "cA001"
    sensor_count := 8
    max_ambient_temp_f := 1000
    max_internal_temp_f := 200
    battery_life_hours := some 24
    range_feet := some 650
    has_repeater := false
    service_uuids := [] }

def exReadingHotAmbient : ProbeReading :=
  { probe_id := "probe-1"
    device_address := "AA:BB"
    timestamp := 0
    temperatures := [70, 80]
    ambient_temp := some 1500
    battery_level := some 80
    signal_strength := -40
    freshness := .Live 0
    confidence := 1
    safety_status := .Safe }

theorem update_safety_status_dangerous_ambient_witness :
    exReadingHotAmbient.update_safety_status exCapabilities 5 =
      { exReadingHotAmbient with safety_status := .DangerousAmbient } :=
  update_safety_status_dangerous_ambient exReadingHotAmbient exCapabilities 5 1500
    rfl (by decide)

def warningTiedReading : ProbeReading :=
  { probe_id := "probe-2"
    device_address := "AA:CC"
    timestamp := 0
    temperatures := [190]
    ambient_temp := some 950
    battery_level := none
    signal_strength := -40
    freshness := .Live 0
    confidence := 1
    safety_status := .Safe }

/-- C1 counterexample: with both the internal and the ambient warning
thresholds crossed (and neither dangerous limit exceeded), the retained
status is Safe — not Warning-Ambient-High as the claim states. -/
theorem warning_tie_counterexample :
    warningTiedReading.ambient_temp = some 950 ∧
    ¬ (950 : ℚ) > exCapabilities.max_ambient_temp_f ∧
    (950 : ℚ) ≥ exCapabilities.max_ambient_temp_f * (9/10) ∧
    warningTiedReading.temperatures = [190] ∧
    ¬ (190 : ℚ) > exCapabilities.max_internal_temp_f ∧
    (190 : ℚ) ≥ exCapabilities.max_internal_temp_f * (9/10) ∧
    (warningTiedReading.update_safety_status exCapabilities 0).safety_status = .Safe ∧
    (warningTiedReading.update_safety_status exCapabilities 0).safety_status ≠
      .WarningAmbientHigh := by
  have hstat : warningTiedReading.update_safety_status exCapabilities 0 =
      { warningTiedReading.update_confidence 0 with safety_status := .Safe } := by
    norm_num [warningTiedReading, exCapabilities, ProbeReading.update_safety_status,
      afterAmbientCheck, internalCheckLoop, ProbeReading.update_confidence]
  refine ⟨rfl, by norm_num [exCapabilities], by norm_num [exCapabilities], rfl,
    by norm_num [exCapabilities], by norm_num [exCapabilities], ?_, ?_⟩ <;>
    rw [hstat] <;> simp

/-- C1 amended: when no dangerous limit is exceeded, the warning statuses
set along the way (ambient is evaluated first, then internal) are
transient — the function ends by overwriting the status with Safe when
the recomputed confidence exceeds 0.1 and Device-Offline otherwise. -/
theorem update_safety_status_no_danger (r : ProbeReading)
    (capabilities : ProbeCapabilities) (age_seconds : ℕ)
    (hamb : ∀ ambient, r.ambient_temp = some ambient →
      ¬ ambient > capabilities.max_ambient_temp_f)
    (hint : ∀ temp ∈ r.temperatures, ¬ temp > capabilities.max_internal_temp_f) :
    r.update_safety_status capabilities age_seconds =
      { r.update_confidence age_seconds with
        safety_status :=
          if (r.update_confidence age_seconds).confidence > 1/10 then .Safe
          else .DeviceOffline } := by
  unfold ProbeReading.update_safety_status
  rcases hsome : r.ambient_temp with _ | ambient
  · exact afterAmbientCheck_no_danger r capabilities age_seconds hint
  · dsimp only
    rw [← hsome]
    rw [if_neg (hamb ambient hsome)]
    by_cases hw : ambient > capabilities.max_ambient_temp_f * (9/10)
    · rw [if_pos hw]
      refine Eq.trans (afterAmbientCheck_no_danger { r with safety_status := .WarningAmbientHigh }
        capabilities age_seconds hint) ?_
      simp only [update_confidence_status_set, status_set_collapse, status_set_confidence]
    · rw [if_neg hw]
      exact afterAmbientCheck_no_danger r capabilities age_seconds hint

theorem update_safety_status_no_danger_witness :
    warningTiedReading.update_safety_status exCapabilities 0 =
      { warningTiedReading.update_confidence 0 with
        safety_status :=
          if (warningTiedReading.update_confidence 0).confidence > 1/10 then .Safe
          else .DeviceOffline } :=
  update_safety_status_no_danger warningTiedReading exCapabilities 0
    (by intro ambient h; simp [warningTiedReading] at h; rw [← h]; decide)
    (by decide)

lemma update_safety_status_cases (r : ProbeReading) (capabilities : ProbeCapabilities)
    (age_seconds : ℕ) :
    r.update_safety_status capabilities age_seconds = { r with safety_status := .DangerousAmbient } ∨
    r.update_safety_status capabilities age_seconds = { r with safety_status := .DangerousInternal } ∨
    r.update_safety_status capabilities age_seconds =
      { r.update_confidence age_seconds with safety_status := .Safe } ∨
    r.update_safety_status capabilities age_seconds =
      { r.update_confidence age_seconds with safety_status := .DeviceOffline } := by
  unfold ProbeReading.update_safety_status
  rcases hsome : r.ambient_temp with _ | ambient
  · dsimp only
    rw [← hsome]
    rcases afterAmbientCheck_cases r capabilities age_seconds with h | h | h
    · right; left; exact h
    · right; right; left; exact h
    · right; right; right; exact h
  · dsimp only
    rw [← hsome]
    split_ifs with h1 h2
    · left; rfl
    · rcases afterAmbientCheck_cases { r with safety_status := .WarningAmbientHigh }
        capabilities age_seconds with h | h | h
      · right; left
        exact h.trans (by simp only [status_set_collapse])
      · right; right; left
        exact h.trans (by simp only [update_confidence_status_set, status_set_collapse])
      · right; right; right
        exact h.trans (by simp only [update_confidence_status_set, status_set_collapse])
    · rcases afterAmbientCheck_cases r capabilities age_seconds with h | h | h
      · right; left; exact h
      · right; right; left; exact h
      · right; right; right; exact h

/-- C9: on a dangerous return the reading is the input with only
`safety_status` replaced (confidence and freshness untouched); on the
non-dangerous path the result is the input run through
`update_confidence` (confidence and freshness recomputed from the age)
and the final status is Safe or Device-Offline. -/
theorem update_safety_status_frame (r : ProbeReading) (capabilities : ProbeCapabilities)
    (age_seconds : ℕ) :
    (((r.update_safety_status capabilities age_seconds).safety_status = .DangerousAmbient ∨
      (r.update_safety_status capabilities age_seconds).safety_status = .DangerousInternal) →
      r.update_safety_status capabilities age_seconds =
        { r with safety_status := (r.update_safety_status capabilities age_seconds).safety_status }) ∧
    (¬ ((r.update_safety_status capabilities age_seconds).safety_status = .DangerousAmbient ∨
        (r.update_safety_status capabilities age_seconds).safety_status = .DangerousInternal) →
      r.update_safety_status capabilities age_seconds =
        { r.update_confidence age_seconds with
            safety_status := (r.update_safety_status capabilities age_seconds).safety_status } ∧
      ((r.update_safety_status capabilities age_seconds).safety_status = .Safe ∨
       (r.update_safety_status capabilities age_seconds).safety_status = .DeviceOffline)) := by
  rcases update_safety_status_cases r capabilities age_seconds with h | h | h | h
  · refine ⟨fun _ => by rw [h], fun hcon => absurd ?_ hcon⟩
    rw [h]; left; rfl
  · refine ⟨fun _ => by rw [h], fun hcon => absurd ?_ hcon⟩
    rw [h]; right; rfl
  · refine ⟨fun hcon => absurd hcon ?_, fun _ => ⟨by rw [h], by rw [h]; left; rfl⟩⟩
    rw [h]; simp
  · refine ⟨fun hcon => absurd hcon ?_, fun _ => ⟨by rw [h], by rw [h]; right; rfl⟩⟩
    rw [h]; simp

theorem update_safety_status_frame_witness :
    exReadingHotAmbient.update_safety_status exCapabilities 5 =
      { exReadingHotAmbient with
        safety_status := (exReadingHotAmbient.update_safety_status exCapabilities 5).safety_status } :=
  (update_safety_status_frame exReadingHotAmbient exCapabilities 5).1
    (Or.inl (by
      norm_num [exReadingHotAmbient, exCapabilities, ProbeReading.update_safety_status]))

/-- C4: update_confidence implements the spec's confidence table exactly,
is monotonically non-increasing in the age, is 1.0 at age 0 and 0.0 above
600 seconds. -/
theorem update_confidence_table (r : ProbeReading) (age age2 : ℕ) (hle : age ≤ age2) :
    ((age ≤ 30 → (r.update_confidence age).confidence = 1) ∧
     (31 ≤ age → age ≤ 120 → (r.update_confidence age).confidence = 8/10) ∧
     (121 ≤ age → age ≤ 300 → (r.update_confidence age).confidence = 5/10) ∧
     (301 ≤ age → age ≤ 600 → (r.update_confidence age).confidence = 2/10) ∧
     (601 ≤ age → (r.update_confidence age).confidence = 0)) ∧
    (r.update_confidence age2).confidence ≤ (r.update_confidence age).confidence ∧
    (r.update_confidence 0).confidence = 1 ∧
    (600 < age2 → (r.update_confidence age2).confidence = 0) := by
  simp only [update_confidence_confidence_eq]
  refine ⟨⟨?_, ?_, ?_, ?_, ?_⟩, ?_, ?_, ?_⟩ <;>
    · intros
      split_ifs <;> first | rfl | omega | norm_num

theorem update_confidence_table_witness :
    ((45 ≤ 30 → (exReadingHotAmbient.update_confidence 45).confidence = 1) ∧
     (31 ≤ 45 → 45 ≤ 120 → (exReadingHotAmbient.update_confidence 45).confidence = 8/10) ∧
     (121 ≤ 45 → 45 ≤ 300 → (exReadingHotAmbient.update_confidence 45).confidence = 5/10) ∧
     (301 ≤ 45 → 45 ≤ 600 → (exReadingHotAmbient.update_confidence 45).confidence = 2/10) ∧
     (601 ≤ 45 → (exReadingHotAmbient.update_confidence 45).confidence = 0)) ∧
    (exReadingHotAmbient.update_confidence 700).confidence ≤
      (exReadingHotAmbient.update_confidence 45).confidence ∧
    (exReadingHotAmbient.update_confidence 0).confidence = 1 ∧
    (600 < 700 → (exReadingHotAmbient.update_confidence 700).confidence = 0) :=
  update_confidence_table exReadingHotAmbient 45 700 (by decide)

def orphanReading : ProbeReading :=
  { probe_id := "probe-9"
    device_address := "DE:AD"
    timestamp := 0
    temperatures := [70]
    ambient_temp := none
    battery_level := none
    signal_strength := -50
    freshness := .Live 0
    confidence := 1
    safety_status := .Safe }

/-- C2 counterexample: `update_reading` installs a reading without checking
the profile map, so updating an empty topology with a reading leaves a
probe id whose device address is absent from the devices map. -/
theorem update_reading_inv_counterexample :
    ¬ TopologyInv ((NetworkTopology.new 0).update_reading orphanReading 0) := by
  intro h
  obtain ⟨capabilities, hc⟩ := h "probe-9" orphanReading
    (by simp [NetworkTopology.update_reading, NetworkTopology.new, orphanReading])
  simp [NetworkTopology.update_reading, NetworkTopology.new] at hc

/-- C2 amended: `add_device` preserves the invariant, and `update_reading`
preserves it only under the precondition that the reading's device
address is already present in the devices map; the fresh topology
satisfies it. -/
theorem topology_ops_preserve_inv (t : NetworkTopology) (device_address : String)
    (capabilities : ProbeCapabilities) (reading : ProbeReading) (now : ℕ)
    (hinv : TopologyInv t) :
    TopologyInv (t.add_device device_address capabilities now) ∧
    ((∃ caps0, t.devices reading.device_address = some caps0) →
      TopologyInv (t.update_reading reading now)) ∧
    TopologyInv (NetworkTopology.new now) := by
  refine ⟨?_, ?_, ?_⟩
  · intro probe_id r hr
    simp only [NetworkTopology.add_device] at hr ⊢
    obtain ⟨caps0, hc⟩ := hinv probe_id r hr
    by_cases ha : r.device_address = device_address
    · exact ⟨capabilities, by rw [if_pos ha]⟩
    · exact ⟨caps0, by rw [if_neg ha]; exact hc⟩
  · rintro ⟨caps0, hc⟩ probe_id r hr
    simp only [NetworkTopology.update_reading] at hr ⊢
    by_cases hp : probe_id = reading.probe_id
    · rw [if_pos hp] at hr
      obtain rfl : reading = r := by injection hr
      exact ⟨caps0, hc⟩
    · rw [if_neg hp] at hr
      exact hinv probe_id r hr
  · intro probe_id r hr
    simp [NetworkTopology.new] at hr

theorem topology_ops_preserve_inv_witness :
    TopologyInv ((NetworkTopology.new 0).add_device "AA:BB" exCapabilities 1) ∧
    ((∃ caps0, (NetworkTopology.new 0).devices orphanReading.device_address = some caps0) →
      TopologyInv ((NetworkTopology.new 0).update_reading orphanReading 1)) ∧
    TopologyInv (NetworkTopology.new 1) :=
  topology_ops_preserve_inv (NetworkTopology.new 0) "AA:BB" exCapabilities orphanReading 1
    (by intro probe_id r hr; simp [NetworkTopology.new] at hr)

/-- C8: the per-device signal history stays bounded by 100 entries under
every operation, and at the bound each update appends at the back and
evicts the oldest entry at the front. -/
theorem update_reading_signal_history (t : NetworkTopology) (reading : ProbeReading)
    (now now2 : ℕ) (device_address : String) (capabilities : ProbeCapabilities)
    (hbound : ∀ a, (t.signal_map a).length ≤ 100) :
    (∀ a, ((t.update_reading reading now).signal_map a).length ≤ 100) ∧
    (∀ a, ((t.add_device device_address capabilities now2).signal_map a).length ≤ 100) ∧
    (∀ a, ((NetworkTopology.new now2).signal_map a).length ≤ 100) ∧
    ((t.signal_map reading.device_address).length = 100 →
      (t.update_reading reading now).signal_map reading.device_address =
        (t.signal_map reading.device_address).tail ++
          [(reading.timestamp, reading.signal_strength)]) ∧
    ((t.signal_map reading.device_address).length < 100 →
      (t.update_reading reading now).signal_map reading.device_address =
        t.signal_map reading.device_address ++
          [(reading.timestamp, reading.signal_strength)]) := by
  refine ⟨?_, fun a => hbound a, fun a => by simp [NetworkTopology.new], ?_, ?_⟩
  · intro a
    simp only [NetworkTopology.update_reading]
    by_cases ha : a = reading.device_address
    · rw [if_pos ha]
      have hb := hbound reading.device_address
      split_ifs with hlen
      · rcases hold : t.signal_map reading.device_address with _ | ⟨x, xs⟩ <;>
          rw [hold] at hb hlen
        · simp at hlen
        · simp only [List.cons_append, List.eraseIdx_cons_zero]
          simp only [List.length_cons] at hb
          simp at hlen ⊢
          omega
      · simp at hlen ⊢
        omega
    · rw [if_neg ha]
      exact hbound a
  · intro hfull
    simp only [NetworkTopology.update_reading, eq_self_iff_true, if_true]
    split_ifs with hlen
    · rcases hold : t.signal_map reading.device_address with _ | ⟨x, xs⟩
      · rw [hold] at hfull; simp at hfull
      · simp [List.eraseIdx_cons_zero]
    · exfalso
      simp at hlen
      omega
  · intro hsmall
    simp only [NetworkTopology.update_reading, eq_self_iff_true, if_true]
    split_ifs with hlen
    · exfalso
      simp at hlen
      omega
    · rfl

theorem update_reading_signal_history_witness :
    (∀ a, (((NetworkTopology.new 0).update_reading orphanReading 1).signal_map a).length ≤ 100) ∧
    (∀ a, (((NetworkTopology.new 0).add_device "AA:BB" exCapabilities 1).signal_map a).length ≤ 100) ∧
    (∀ a, ((NetworkTopology.new 1).signal_map a).length ≤ 100) ∧
    (((NetworkTopology.new 0).signal_map orphanReading.device_address).length = 100 →
      ((NetworkTopology.new 0).update_reading orphanReading 1).signal_map orphanReading.device_address =
        ((NetworkTopology.new 0).signal_map orphanReading.device_address).tail ++
          [(orphanReading.timestamp, orphanReading.signal_strength)]) ∧
    (((NetworkTopology.new 0).signal_map orphanReading.device_address).length < 100 →
      ((NetworkTopology.new 0).update_reading orphanReading 1).signal_map orphanReading.device_address =
        (NetworkTopology.new 0).signal_map orphanReading.device_address ++
          [(orphanReading.timestamp, orphanReading.signal_strength)]) :=
  update_reading_signal_history (NetworkTopology.new 0) orphanReading 1 1 "AA:BB" exCapabilities
    (fun a => by simp [NetworkTopology.new])

lemma sanitizeTemp_band (raw_temp : ℕ) :
    -40 ≤ sanitizeTemp raw_temp ∧ sanitizeTemp raw_temp ≤ 1100 := by
  unfold sanitizeTemp
  split_ifs with h
  · exact h
  · norm_num

lemma rawToF_band (raw_temp : ℕ) (h : raw_temp < 8192) :
    -40 ≤ rawToF raw_temp ∧ rawToF raw_temp ≤ 1100 := by
  have h1 : (raw_temp : ℚ) ≤ 8191 := by
    exact_mod_cast Nat.lt_succ_iff.mp h
  have h0 : (0 : ℚ) ≤ (raw_temp : ℚ) := Nat.cast_nonneg raw_temp
  unfold rawToF
  constructor <;> [linarith; linarith]

lemma sanitizeTemp_of_lt (raw_temp : ℕ) (h : raw_temp < 8192) :
    sanitizeTemp raw_temp = rawToF raw_temp := by
  unfold sanitizeTemp
  rw [if_pos (rawToF_band raw_temp h)]

lemma specPackedField_lt (data : List ℕ) (i : ℕ) : specPackedField data i < 8192 :=
  Nat.mod_lt _ (by norm_num)

lemma round_inverse_rawToF (raw_temp : ℕ) :
    round (((rawToF raw_temp - 32) * 5 / 9 + 20) / (1 / 20 : ℚ)) = (raw_temp : ℤ) := by
  have h : ((rawToF raw_temp - 32) * 5 / 9 + 20) / (1 / 20 : ℚ) = (raw_temp : ℚ) := by
    unfold rawToF
    ring
  rw [h, round_natCast]

/-- Full evaluation of the MeatStick parser on a payload of at least 13
bytes: the length guard passes, the loop yields 8 sanitized values, and
the emptiness check fails. -/
lemma meatstick_parse_eval (b0 b1 b2 b3 b4 b5 b6 b7 b8 b9 b10 b11 b12 : ℕ)
    (rest : List ℕ) :
    MeatStickProtocol.parse_temperature_data (b0 :: b1 :: b2 :: b3 :: b4 :: b5 :: b6 ::
        b7 :: b8 :: b9 :: b10 :: b11 :: b12 :: rest) =
      .ok [ sanitizeTemp (((b1 &&& 31) <<< 8) ||| b0),
            sanitizeTemp (((((b3 &&& 31) <<< 11) % 65536) ||| (b2 <<< 3) ||| (b1 >>> 5)) &&& 8191),
            sanitizeTemp ((0 ||| (b4 <<< 6) ||| (b3 >>> 2)) &&& 8191),
            sanitizeTemp (((((b6 &&& 31) <<< 9) % 65536) ||| (b5 <<< 1) ||| (b4 >>> 7)) &&& 8191),
            sanitizeTemp (((((b8 &&& 31) <<< 12) % 65536) ||| (b7 <<< 4) ||| (b6 >>> 4)) &&& 8191),
            sanitizeTemp ((0 ||| (b9 <<< 7) ||| (b8 >>> 1)) &&& 8191),
            sanitizeTemp (((((b11 &&& 31) <<< 10) % 65536) ||| (b10 <<< 2) ||| (b9 >>> 6)) &&& 8191),
            sanitizeTemp ((0 ||| (b12 <<< 5) ||| (b11 >>> 3)) &&& 8191) ] := by
  unfold MeatStickProtocol.parse_temperature_data
  rw [meatStickLoop_eval]
  rw [if_neg (by simp)]
  rfl

/-- Shared content of the MeatStick claims: parsing a payload of at least
13 bytes succeeds with exactly 8 values, all inside the sanity band,
each the sanitized conversion of the corresponding extracted raw field. -/
lemma meatstick_parse_spec (data : List ℕ) (h : 13 ≤ data.length) :
    ∃ ts, MeatStickProtocol.parse_temperature_data data = .ok ts ∧ ts.length = 8 ∧
      (∀ temp ∈ ts, -40 ≤ temp ∧ temp ≤ 1100) ∧
      (∀ i (hi : i < ts.length), ∃ raw, extractRaw data (13 * i) = .ok raw ∧
        ts.get ⟨i, hi⟩ = sanitizeTemp raw) := by
  obtain ⟨b0, b1, b2, b3, b4, b5, b6, b7, b8, b9, b10, b11, b12, rest, rfl⟩ :=
    exists_cons13 data h
  refine ⟨_, meatstick_parse_eval b0 b1 b2 b3 b4 b5 b6 b7 b8 b9 b10 b11 b12 rest,
    rfl, ?_, ?_⟩
  · intro temp htemp
    simp only [List.mem_cons, List.not_mem_nil, or_false] at htemp
    rcases htemp with h' | h' | h' | h' | h' | h' | h' | h' <;>
      · rw [h']; exact sanitizeTemp_band _
  · intro i hi
    simp only [List.length_cons, List.length_nil] at hi
    interval_cases i
    · exact ⟨_, rfl, rfl⟩
    · exact ⟨_, rfl, rfl⟩
    · exact ⟨_, rfl, rfl⟩
    · exact ⟨_, rfl, rfl⟩
    · exact ⟨_, rfl, rfl⟩
    · exact ⟨_, rfl, rfl⟩
    · exact ⟨_, rfl, rfl⟩
    · exact ⟨_, rfl, rfl⟩

/-- C5: a MeatStick payload of at least 13 bytes always parses to exactly
8 temperatures, every reported value lies in the sanity band (out-of-band
extractions are replaced by the 0.0 sentinel rather than rejected), and
the "no valid temperatures" failure branch is never taken. -/
theorem meatstick_parse_total (data : List ℕ) (h : 13 ≤ data.length) :
    (∃ ts, MeatStickProtocol.parse_temperature_data data = .ok ts ∧ ts.length = 8 ∧
      (∀ temp ∈ ts, -40 ≤ temp ∧ temp ≤ 1100) ∧
      (∀ i (hi : i < ts.length), ∃ raw, extractRaw data (13 * i) = .ok raw ∧
        ts.get ⟨i, hi⟩ = sanitizeTemp raw)) ∧
    MeatStickProtocol.parse_temperature_data data ≠ .error .noValid := by
  obtain ⟨ts, hok, hlen, hband, hidx⟩ := meatstick_parse_spec data h
  exact ⟨⟨ts, hok, hlen, hband, hidx⟩, by rw [hok]; simp⟩

theorem meatstick_parse_total_witness :
    (∃ ts, MeatStickProtocol.parse_temperature_data
        [76, 3, 0, 0, 0, 0, 0, 0, 0, 0, 0, 0, 0] = .ok ts ∧ ts.length = 8 ∧
      (∀ temp ∈ ts, -40 ≤ temp ∧ temp ≤ 1100) ∧
      (∀ i (hi : i < ts.length), ∃ raw,
        extractRaw [76, 3, 0, 0, 0, 0, 0, 0, 0, 0, 0, 0, 0] (13 * i) = .ok raw ∧
        ts.get ⟨i, hi⟩ = sanitizeTemp raw)) ∧
    MeatStickProtocol.parse_temperature_data [76, 3, 0, 0, 0, 0, 0, 0, 0, 0, 0, 0, 0] ≠
      .error .noValid :=
  meatstick_parse_total [76, 3, 0, 0, 0, 0, 0, 0, 0, 0, 0, 0, 0] (by decide)

/-- C6: for a 13-byte payload, inverting the scaling formula on any decoded
in-band temperature (convert Fahrenheit back to Celsius, then
`round((celsius + 20) / 0.05)`) recovers exactly the 13-bit field packed
at that sensor position of the little-endian bitstream. -/
theorem meatstick_decode_roundtrip (data : List ℕ) (hlen : data.length = 13)
    (hbytes : ∀ b ∈ data, b < 256) (i : ℕ) (hi : i < 8) :
    ∃ ts raw, MeatStickProtocol.parse_temperature_data data = .ok ts ∧
      extractRaw data (13 * i) = .ok raw ∧ raw = specPackedField data i ∧
      ∃ (hts : i < ts.length),
        (-40 ≤ ts.get ⟨i, hts⟩ ∧ ts.get ⟨i, hts⟩ ≤ 1100) →
          round (((ts.get ⟨i, hts⟩ - 32) * 5 / 9 + 20) / (1 / 20 : ℚ)) =
            (specPackedField data i : ℤ) := by
  obtain ⟨ts, hok, hlen8, hband, hidx⟩ := meatstick_parse_spec data (by omega)
  obtain ⟨b0, b1, b2, b3, b4, b5, b6, b7, b8, b9, b10, b11, b12, rest, hdata⟩ :=
    exists_cons13 data (by omega)
  have hrest : rest = [] := by
    rw [hdata] at hlen
    simp at hlen
    exact hlen
  subst hrest
  subst hdata
  have hext := extractRaw_eq_specPackedField b0 b1 b2 b3 b4 b5 b6 b7 b8 b9 b10 b11 b12
    (hbytes b0 (by simp)) (hbytes b1 (by simp)) (hbytes b2 (by simp))
    (hbytes b3 (by simp)) (hbytes b4 (by simp)) (hbytes b5 (by simp))
    (hbytes b6 (by simp)) (hbytes b7 (by simp)) (hbytes b8 (by simp))
    (hbytes b9 (by simp)) (hbytes b10 (by simp)) (hbytes b11 (by simp))
    (hbytes b12 (by simp)) i hi
  obtain ⟨raw, hraw, hget⟩ := hidx i (by omega)
  have hspec : raw = specPackedField
      (b0 :: b1 :: b2 :: b3 :: b4 :: b5 :: b6 :: b7 :: b8 :: b9 :: b10 :: b11 :: b12 :: []) i := by
    rw [hraw] at hext
    injection hext
  refine ⟨ts, raw, hok, hraw, hspec, by omega, fun _ => ?_⟩
  rw [hget, hspec, sanitizeTemp_of_lt _ (specPackedField_lt _ i), round_inverse_rawToF]

theorem meatstick_decode_roundtrip_witness :
    ∃ ts raw, MeatStickProtocol.parse_temperature_data
        [76, 3, 0, 0, 0, 0, 0, 0, 0, 0, 0, 0, 0] = .ok ts ∧
      extractRaw [76, 3, 0, 0, 0, 0, 0, 0, 0, 0, 0, 0, 0] (13 * 0) = .ok raw ∧
      raw = specPackedField [76, 3, 0, 0, 0, 0, 0, 0, 0, 0, 0, 0, 0] 0 ∧
      ∃ (hts : 0 < ts.length),
        (-40 ≤ ts.get ⟨0, hts⟩ ∧ ts.get ⟨0, hts⟩ ≤ 1100) →
          round (((ts.get ⟨0, hts⟩ - 32) * 5 / 9 + 20) / (1 / 20 : ℚ)) =
            (specPackedField [76, 3, 0, 0, 0, 0, 0, 0, 0, 0, 0, 0, 0] 0 : ℤ) :=
  meatstick_decode_roundtrip [76, 3, 0, 0, 0, 0, 0, 0, 0, 0, 0, 0, 0] (by decide)
    (by decide) 0 (by decide)

/-- C7: each decoder rejects a too-short payload with a length error
carrying the required and actual lengths, and neither decoder ever makes
an out-of-bounds byte access on any payload. -/
theorem decoders_never_oob :
    (∀ data : List ℕ, data.length < 13 →
      MeatStickProtocol.parse_temperature_data data = .error (.tooShort 13 data.length)) ∧
    (∀ data : List ℕ, data.length < 8 →
      MeaterProtocol.parse_temperature_data data = .error (.tooShort 8 data.length)) ∧
    (∀ data : List ℕ, MeatStickProtocol.parse_temperature_data data ≠ .error .oob ∧
      MeaterProtocol.parse_temperature_data data ≠ .error .oob) := by
  have hshort1 : ∀ data : List ℕ, data.length < 13 →
      MeatStickProtocol.parse_temperature_data data = .error (.tooShort 13 data.length) := by
    intro data h
    unfold MeatStickProtocol.parse_temperature_data
    rw [if_pos h]
  have hshort2 : ∀ data : List ℕ, data.length < 8 →
      MeaterProtocol.parse_temperature_data data = .error (.tooShort 8 data.length) := by
    intro data h
    unfold MeaterProtocol.parse_temperature_data
    rw [if_pos h]
  refine ⟨hshort1, hshort2, fun data => ⟨?_, ?_⟩⟩
  · by_cases h : data.length < 13
    · rw [hshort1 data h]
      simp
    · obtain ⟨ts, hok, -, -, -⟩ := meatstick_parse_spec data (by omega)
      rw [hok]
      simp
  · by_cases h : data.length < 8
    · rw [hshort2 data h]
      simp
    · obtain ⟨b0, b1, b2, b3, b4, b5, b6, b7, rest, rfl⟩ := exists_cons8 data (by omega)
      rw [meater_parse_eval]
      simp

theorem decoders_never_oob_witness :
    MeatStickProtocol.parse_temperature_data [0, 1, 2] = .error (.tooShort 13 3) ∧
    MeaterProtocol.parse_temperature_data [5] = .error (.tooShort 8 1) ∧
    MeatStickProtocol.parse_temperature_data [] ≠ .error .oob ∧
    MeaterProtocol.parse_temperature_data [] ≠ .error .oob :=
  ⟨decoders_never_oob.1 [0, 1, 2] (by decide),
   decoders_never_oob.2.1 [5] (by decide),
   (decoders_never_oob.2.2 []).1,
   (decoders_never_oob.2.2 []).2⟩

/-- C10: the MEATER ambient value is the tip plus a non-negative clamped
correction, so ambient is at least tip; ambient passes the sanity band
only if tip does; hence a 1-element result is always the tip reading. -/
theorem meater_ambient_dominates (data : List ℕ) (h : 8 ≤ data.length) :
    meaterTipF data ≤ meaterAmbientF data ∧
    ((-40 ≤ meaterAmbientF data ∧ meaterAmbientF data ≤ 600) →
      (-40 ≤ meaterTipF data ∧ meaterTipF data ≤ 600)) ∧
    (∀ ts, MeaterProtocol.parse_temperature_data data = .ok ts →
      ts.length = 1 → ts = [meaterTipF data]) := by
  have htr : ((data.getD 0 0 + 256 * data.getD 1 0 : ℕ) : ℤ) ≤ meaterAmbientRaw data :=
    le_add_of_nonneg_right (le_max_right _ 0)
  have hq : ((data.getD 0 0 + 256 * data.getD 1 0 : ℕ) : ℚ) ≤ ((meaterAmbientRaw data : ℤ) : ℚ) := by
    exact_mod_cast htr
  have h0 : (0 : ℚ) ≤ ((data.getD 0 0 + 256 * data.getD 1 0 : ℕ) : ℚ) := Nat.cast_nonneg _
  have h1 : meaterTipF data ≤ meaterAmbientF data := by
    unfold meaterTipF meaterAmbientF
    push_cast
    push_cast at hq
    linarith
  have h2 : -40 ≤ meaterTipF data := by
    unfold meaterTipF
    linarith
  refine ⟨h1, fun hamb => ⟨h2, le_trans h1 hamb.2⟩, ?_⟩
  obtain ⟨b0, b1, b2, b3, b4, b5, b6, b7, rest, hdata⟩ := exists_cons8 data h
  intro ts hok hlen1
  rw [hdata] at hok
  rw [meater_parse_eval] at hok
  dsimp only at hok
  rw [← hdata] at hok
  split_ifs at hok with hA hT hT
  · injection hok with hok'
    rw [← hok'] at hlen1
    simp at hlen1
  · exact absurd (le_trans h1 hA.2) (fun hle => hT ⟨h2, hle⟩)
  · injection hok with hok'
    rw [← hok']
  · injection hok with hok'
    rw [← hok'] at hlen1
    simp at hlen1

theorem meater_ambient_dominates_witness :
    meaterTipF [222, 0, 0, 1, 0, 1, 0, 0] ≤ meaterAmbientF [222, 0, 0, 1, 0, 1, 0, 0] ∧
    ((-40 ≤ meaterAmbientF [222, 0, 0, 1, 0, 1, 0, 0] ∧
        meaterAmbientF [222, 0, 0, 1, 0, 1, 0, 0] ≤ 600) →
      (-40 ≤ meaterTipF [222, 0, 0, 1, 0, 1, 0, 0] ∧
        meaterTipF [222, 0, 0, 1, 0, 1, 0, 0] ≤ 600)) ∧
    (∀ ts, MeaterProtocol.parse_temperature_data [222, 0, 0, 1, 0, 1, 0, 0] = .ok ts →
      ts.length = 1 → ts = [meaterTipF [222, 0, 0, 1, 0, 1, 0, 0]]) :=
  meater_ambient_dominates [222, 0, 0, 1, 0, 1, 0, 0] (by decide)
